import Mathlib

/-
  Verification development for the rreplay coordination engine
  (src/src/rreplay.py).  The Python source is shallowly embedded below:
  Python strings are Lean Strings (with some helpers working on the
  underlying character lists), Python dicts holding JSON data are
  association lists, the filesystem is an explicit value threaded through
  the functions, and fallible Python code returns Except PyErr.
-/

namespace CrashSim

/-- Python exception kinds that the embedded code can raise. -/
inductive PyErr where
  | indexError
  | nameError
  | typeError
  | osError
  | ioError
  | valueError
  | noSectionError
deriving Repr, DecidableEq

/-- Python str.split(sep) with an explicit single-space separator:
    splits at every occurrence of the separator, keeping empty chunks,
    and an empty input yields one empty chunk. -/
def splitSp : List Char → List (List Char)
  | [] => [[]]
  | c :: rest =>
    if c = ' ' then [] :: splitSp rest
    else
      match splitSp rest with
      | [] => [[c]]
      | g :: gs => (c :: g) :: gs

/-- Python whitespace set used by str.strip (space, tab, newline,
    carriage return, vertical tab, form feed). -/
def isPySpace (c : Char) : Bool :=
  c = ' ' || c = Char.ofNat 9 || c = Char.ofNat 10 || c = Char.ofNat 13 ||
  c = Char.ofNat 11 || c = Char.ofNat 12

/-- Python str.strip: drop whitespace from both ends. -/
def pyStrip (l : List Char) : List Char :=
  ((l.dropWhile isPySpace).reverse.dropWhile isPySpace).reverse

/-- Python list indexing parts[i]: raises IndexError when out of range. -/
def pyGet (l : List α) (i : Nat) : Except PyErr α :=
  match l[i]? with
  | some x => .ok x
  | none => .error .indexError

/-- Value of a decimal digit character, if it is one. -/
def charDigit (c : Char) : Option Nat :=
  if 48 ≤ c.toNat && c.toNat ≤ 57 then some (c.toNat - 48) else none

/-- Decimal value of a nonempty all-digit character list. -/
def digitsVal (l : List Char) : Option Nat :=
  if l = [] then none
  else
    l.foldl
      (fun acc c =>
        match acc, charDigit c with
        | some a, some d => some (a * 10 + d)
        | _, _ => none)
      (some 0)

/-- Python int() on a string: optional surrounding whitespace, optional
    sign, then at least one decimal digit; anything else is a ValueError.
    Modelled for the decimal event and pid strings this program handles. -/
def pyIntCore (s : String) : Option Int :=
  match pyStrip s.data with
  | '-' :: ds => (digitsVal ds).map (fun n => -(n : Int))
  | '+' :: ds => (digitsVal ds).map (fun n => (n : Int))
  | ds => (digitsVal ds).map (fun n => (n : Int))

/-- Python int() raising ValueError on failure. -/
def pyInt (s : String) : Except PyErr Int :=
  match pyIntCore s with
  | some k => .ok k
  | none => .error .valueError

/-- JSON values as this program produces them: every field written by
    rreplay is either a string or a list of pid strings (other_procs). -/
inductive JVal where
  | str : String → JVal
  | arr : List String → JVal
deriving Repr, DecidableEq

/-- A JSON object, i.e. a Python dict serialized by json.dump; access is
    by key, so an association list is a faithful model. -/
abbrev JObj := List (String × JVal)

/-- Dict / JSON object field lookup. -/
def jLookup (o : JObj) (k : String) : Option JVal :=
  o.lookup k

/-- Python dict assignment d[k] = v: old binding for k replaced. -/
def jSet (o : JObj) (k : String) (v : JVal) : JObj :=
  (k, v) :: o.filter (fun p => p.1 != k)

/-- One test subject as parsed out of config.ini by get_configuration.
    The Python code stores it as a dict; the optional fields are keys that
    may be absent, handle is attached only once a supervisor is spawned
    (modelled as the id of the spawned subprocess). -/
structure Subject where
  event : String
  rec_pid : String
  trace_file : String
  trace_start : String
  trace_end : String
  mutator : String
  injected_state_file : String
  mmap_backing_files : Option String
  checker : Option String
  other_procs : List String
  handle : Option Nat
deriving Repr, DecidableEq

/-- json.dump of a subject dict, as performed by
    create_event_configuration_files.  The emitter runs before any
    matching, so no handle key exists yet (a Popen object would not be
    JSON-serializable anyway) and other_procs is whatever the dict holds
    (the empty list at that point). -/
def dumpSubject (s : Subject) : JObj :=
  [("event", .str s.event), ("rec_pid", .str s.rec_pid),
   ("trace_file", .str s.trace_file), ("trace_start", .str s.trace_start),
   ("trace_end", .str s.trace_end), ("mutator", .str s.mutator),
   ("injected_state_file", .str s.injected_state_file),
   ("other_procs", .arr s.other_procs)]
  ++ (match s.mmap_backing_files with
      | some v => [("mmap_backing_files", JVal.str v)]
      | none => [])
  ++ (match s.checker with
      | some v => [("checker", JVal.str v)]
      | none => [])

/-- One subject section of config.ini with its required keys; the two
    optional keys may be absent (ConfigParser.NoOptionError is caught and
    ignored by the source, leaving the dict key unset). -/
structure IniSection where
  event : String
  pid : String
  trace_file : String
  trace_start : String
  trace_end : String
  mutator : String
  mmap_backing_files : Option String
  checker : Option String
deriving Repr, DecidableEq

/-- A readable config.ini: its first section provides rr_dir, every
    further section is one subject section.  Sources that are unreadable
    or missing required keys raise before reaching the logic modelled
    here, so accepted sources are exactly the values of this type. -/
structure Config where
  rr_dir : String
  sections : List IniSection
deriving Repr, DecidableEq

/-- Result of get_configuration: the trace directory, the parsed and
    sorted subject list, and the filesystem after the brk-cache cleanup
    loop (the filesystem is modelled as the list of existing paths). -/
structure ConfigResult where
  rr_dir : String
  subjects : List Subject
  fs : List String
deriving Repr, DecidableEq

/-- Body of the parsing loop of get_configuration: one section becomes
    one subject dict, with injected_state_file derived from event and
    mutator and other_procs initialised empty. -/
def parseSection (sec : IniSection) : Subject :=
  { event := sec.event
    rec_pid := sec.pid
    trace_file := sec.trace_file
    trace_start := sec.trace_start
    trace_end := sec.trace_end
    mutator := sec.mutator
    injected_state_file := sec.event ++ "_" ++ sec.mutator ++ "_state.json"
    mmap_backing_files := sec.mmap_backing_files
    checker := sec.checker
    other_procs := []
    handle := none }

/-- Sort relation used by subjects.sort(key=lambda sub: int(sub[event])):
    compare the precomputed integer keys. -/
def eventLe (a b : Int × Subject) : Prop := a.1 ≤ b.1

instance : DecidableRel eventLe :=
  fun a b => inferInstanceAs (Decidable (a.1 ≤ b.1))

instance : IsTotal (Int × Subject) eventLe := ⟨fun a b => le_total a.1 b.1⟩

instance : IsTrans (Int × Subject) eventLe :=
  ⟨fun _ _ _ h1 h2 => le_trans h1 h2⟩

/-- Python list.sort(key=f) first evaluates the key on every element in
    list order (a ValueError from int() propagates), then sorts the
    decorated list stably. -/
def decorate : List Subject → Except PyErr (List (Int × Subject))
  | [] => .ok []
  | s :: rest =>
    match pyInt s.event with
    | .error e => .error e
    | .ok k =>
      match decorate rest with
      | .error e => .error e
      | .ok ks => .ok ((k, s) :: ks)

/-- Python try: os.remove(path) except OSError: pass — removes the path
    if present, silently does nothing otherwise. -/
def osRemoveTry (path : String) (fs : List String) : List String :=
  fs.filter (fun p => p != path)

/-- Final loop of get_configuration: for i in subjects, the body removes
    s[rec_pid] + _brks.json where s is NOT the loop variable i but the
    variable left over from the parsing loop, i.e. the LAST PARSED
    subject; so the same single path is removed once per subject. -/
def removeBrksLoop : List Subject → String → List String → List String
  | [], _, fs => fs
  | _ :: rest, path, fs => removeBrksLoop rest path (osRemoveTry path fs)

/-- Embedding of get_configuration: raise when no subject sections exist,
    parse each section, sort the subjects by integer event id with the
    stable list sort, then run the brk-cache removal loop. -/
def get_configuration (cfg : Config) (fs : List String) :
    Except PyErr ConfigResult :=
  match cfg.sections with
  | [] => .error .noSectionError
  | s0 :: srest =>
    match decorate ((s0 :: srest).map parseSection) with
    | .error e => .error e
    | .ok keyed =>
      let subs := (List.insertionSort eventLe keyed).map (fun p => p.2)
      -- the Python variable s after the parsing loop holds the subject
      -- parsed from the final section
      let lastParsed := parseSection (srest.getLastD s0)
      let brkPath := lastParsed.rec_pid ++ "_brks.json"
      .ok ⟨cfg.rr_dir, subs, removeBrksLoop subs brkPath fs⟩

/-- Filesystem of emitted JSON files: path to object, most recent write
    first, so lookup returns the latest content (write-mode open
    truncates and replaces). -/
abbrev JFS := List (String × JObj)

/-- Embedding of create_event_configuration_files: for each subject in
    order, json.dump the subject dict to its injected_state_file. -/
def create_event_configuration_files (subjects : List Subject) (fs : JFS) :
    JFS :=
  subjects.foldl (fun acc s => (s.injected_state_file, dumpSubject s) :: acc) fs

/-- State of the module-global rrdump_pipe handle: none before the first
    call of get_message, afterwards the not-yet-consumed byte stream of
    the open pipe (the pipe delivers finitely many bytes and then reports
    end of stream on every further read). -/
structure PipeState where
  pipe : Option (List Char)
deriving Repr, DecidableEq

/-- Byte stream get_message reads in a given call: the already open
    stream if the global handle exists, otherwise the content of the
    fifo it opens now. -/
def openedStream (st : PipeState) (fifoContent : List Char) : List Char :=
  st.pipe.getD fifoContent

/-- The read loop of get_message, fuel-indexed to observe divergence:
    buf += rrdump_pipe.read(1); an empty buf after a read from a closed
    stream returns the empty message; a trailing newline returns the
    accumulated message; otherwise loop.  Returns none when the fuel runs
    out, i.e. the loop is still running after that many iterations. -/
def readMsgLoop : Nat → List Char → List Char → Option (String × List Char)
  | 0, _, _ => none
  | n + 1, stream, buf =>
    match stream with
    | [] =>
      -- read(1) returned the empty string: buf is unchanged
      if buf = [] then some ("", [])
      else if buf.getLastD ' ' = '\n' then some (⟨buf⟩, [])
      else readMsgLoop n [] buf
    | c :: rest =>
      -- one byte appended; buf is now nonempty
      if c = '\n' then some (⟨buf ++ [c]⟩, rest)
      else readMsgLoop n rest (buf ++ [c])

/-- Embedding of get_message: open the fifo only if the global handle is
    absent (the wait-for-existence busy loop is outside this model: the
    fifo content is given), then run the byte-accumulation loop starting
    from an empty buffer.  Returns the message and the successor global
    state, or none if the loop diverges past the given fuel. -/
def get_message (fuel : Nat) (fifoContent : List Char) (st : PipeState) :
    Option (String × PipeState) :=
  match readMsgLoop fuel (openedStream st fifoContent) [] with
  | some (msg, rest) => some (msg, ⟨some rest⟩)
  | none => none

/-- Capture file for the replay engine output (consts.PROC_FILE; the
    cleanup log line names it proc.out). -/
def PROC_FILE : String := "proc.out"

/-- Named pipe used by modified rr (consts.RR_PIPE; the cleanup log line
    names it rrdump_proc.pipe). -/
def RR_PIPE : String := "rrdump_proc.pipe"

/-- Python os.unlink: removes the path, raising OSError if absent. -/
def os_unlink (path : String) (fs : List String) :
    Except PyErr (List String) :=
  if path ∈ fs then .ok (fs.filter (fun p => p != path)) else .error .osError

/-- Embedding of cleanup: unlink the capture file and the pipe, each
    guarded by an existence check. -/
def cleanup (fs : List String) : Except PyErr (List String) :=
  match (if PROC_FILE ∈ fs then os_unlink PROC_FILE fs else .ok fs) with
  | .error e => .error e
  | .ok fs1 => if RR_PIPE ∈ fs1 then os_unlink RR_PIPE fs1 else .ok fs1

/-- Line parsing at the top of the process_messages loop body:
    parts = message.split(' '); inject = parts[0].strip()[:-1];
    event = parts[2]; pid = parts[4].  Out-of-range indexing raises
    IndexError.  Returns (inject, event, pid). -/
def parseMessage (msg : String) : Except PyErr (String × String × String) := do
  let parts := splitSp msg.data
  let p0 ← pyGet parts 0
  let ev ← pyGet parts 2
  let pid ← pyGet parts 4
  .ok (⟨(pyStrip p0).dropLast⟩, ⟨ev⟩, ⟨pid⟩)

/-- State of the process_messages loop.  subjects is the shared subject
    list (dicts are mutated in place, modelled by updating the list at an
    index); handled is the subjects_handled set of (event, mutator) keys;
    sVar is the local Python variable s, bound only by the INJECT branch
    and read by the DONT_INJECT branch (an index into subjects); fs is
    the JSON file store; nextHandle generates ids for spawned supervisor
    subprocesses; orphanWarnings counts the warning blocks logged for
    INJECT messages that no pending subject can take. -/
structure MatcherState where
  subjects : List Subject
  handled : List (String × String)
  sVar : Option Nat
  fs : JFS
  nextHandle : Nat
  orphanWarnings : Nat
deriving Repr, DecidableEq

/-- Candidate selection of the loop body: subjects_for_event collects
    (as indices, to model dict identity) every subject whose event equals
    the message event and whose (event, mutator) key is not yet handled. -/
def subjectsForEvent (st : MatcherState) (event : String) : List Nat :=
  (List.range st.subjects.length).filter (fun j =>
    match st.subjects[j]? with
    | some i => i.event == event && !(st.handled.contains (i.event, i.mutator))
    | none => false)

/-- One iteration of the process_messages loop on an already retrieved
    message.  The liveness busy-wait on util.process_is_alive (a module
    outside this repository) always terminates once the reported process
    is alive and changes no state, so it is not modelled.  INJECT pops
    the last candidate (list.pop), marks it handled, reads its event
    config, writes the pid-qualified config, and spawns a supervisor; an
    empty candidate list is the orphan warning case (IndexError caught,
    continue).  DONT_INJECT appends the pid to s.other_procs where s is
    whatever subject the Python variable s last referred to — the
    UnboundLocalError when no INJECT has run yet is a NameError here. -/
def process_one_message (st : MatcherState) (msg : String) :
    Except PyErr MatcherState :=
  match parseMessage msg with
  | .error e => .error e
  | .ok (inject, event, pid) =>
    let idxs := subjectsForEvent st event
    if inject = "INJECT" then
      match idxs.getLast? with
      | none =>
        -- except IndexError: warn about the orphan process and continue
        .ok { st with orphanWarnings := st.orphanWarnings + 1 }
      | some j =>
        match st.subjects[j]? with
        | none => .error .indexError
        | some s =>
          let handled := st.handled ++ [(s.event, s.mutator)]
          match st.fs.lookup s.injected_state_file with
          | none => .error .ioError
          | some obj =>
            let tmp := jSet obj "pid" (.str pid)
            let pidFile := pid ++ "_" ++ s.injected_state_file
            .ok { subjects := st.subjects.set j { s with handle := some st.nextHandle }
                  handled := handled
                  sVar := some j
                  fs := (pidFile, tmp) :: st.fs
                  nextHandle := st.nextHandle + 1
                  orphanWarnings := st.orphanWarnings }
    else if inject = "DONT_INJECT" then
      match st.sVar with
      | none => .error .nameError
      | some j =>
        match st.subjects[j]? with
        | none => .error .indexError
        | some s =>
          .ok { st with
                subjects := st.subjects.set j
                  { s with other_procs := s.other_procs ++ [pid] } }
    else
      -- no else branch exists in the source: the line is dropped
      .ok st

/-- The process_messages driver: while the handled-key count is below the
    subject count, retrieve a message and run the loop body.  The pipe is
    modelled as the given finite message list; if it is exhausted while
    the loop condition still holds, the real program would block forever
    in get_message, so the model simply stops and returns the state
    reached. -/
def process_messages : List String → MatcherState → Except PyErr MatcherState
  | [], st => .ok st
  | msg :: rest, st =>
    if st.handled.length < st.subjects.length then
      match process_one_message st msg with
      | .ok st2 => process_messages rest st2
      | .error e => .error e
    else .ok st

/-- One iteration of the kill loop in wait_on_handles:
    for i in s[other_procs] runs the debug log line, whose argument
    s[other_procs][i] indexes a Python list with the pid STRING i, which
    raises TypeError before os.kill is ever reached.  (The intended
    os.kill(int(i), SIGKILL) guarded by except OSError: pass is dead
    code on every nonempty iteration.) -/
def kill_iteration (_alive : List Nat) (_i : String) : Except PyErr (List Nat) :=
  .error .typeError

/-- The kill loop of wait_on_handles over the other_procs list of one
    subject, threading the table of live pids. -/
def kill_other_procs (procs : List String) (alive : List Nat) :
    Except PyErr (List Nat) :=
  procs.foldlM kill_iteration alive

/-- Embedding of wait_on_handles.  wait maps a supervisor handle id to
    the exit status its wait() call returns.  For each subject in order:
    wait on its handle if present, else log and use -1; run the kill loop
    over its other_procs; then record a failure line when the status is
    nonzero.  Returns the failure reports (event, rec_pid) and the final
    live-pid table. -/
def wait_on_handles (wait : Nat → Int) :
    List Subject → List Nat → Except PyErr (List (String × String) × List Nat)
  | [], alive => .ok ([], alive)
  | s :: rest, alive => do
    let ret : Int :=
      match s.handle with
      | some h => wait h
      | none => -1
    let alive2 ← kill_other_procs s.other_procs alive
    let failHere := if ret != 0 then [(s.event, s.rec_pid)] else []
    let (fails, alive3) ← wait_on_handles wait rest alive2
    .ok (failHere ++ fails, alive3)

/-! Concrete fixtures used by the claim theorems and witnesses. -/

/-- Example subject for event 5 with mutator m1 (Scenario A shape). -/
def sampleA : Subject :=
  { event := "5", rec_pid := "100", trace_file := "t.bin",
    trace_start := "0", trace_end := "10", mutator := "m1",
    injected_state_file := "5_m1_state.json", mmap_backing_files := none,
    checker := none, other_procs := [], handle := none }

/-- Example subject for event 7 with mutator m2. -/
def sampleB : Subject :=
  { event := "7", rec_pid := "100", trace_file := "t.bin",
    trace_start := "0", trace_end := "10", mutator := "m2",
    injected_state_file := "7_m2_state.json", mmap_backing_files := none,
    checker := none, other_procs := [], handle := none }

/-- Matcher start state over subjects sampleA and sampleB with their
    event configuration files already emitted. -/
def sampleSt2 : MatcherState :=
  { subjects := [sampleA, sampleB], handled := [], sVar := none,
    fs := create_event_configuration_files [sampleA, sampleB] [],
    nextHandle := 1, orphanWarnings := 0 }

/-- Matcher start state over the single subject sampleA. -/
def sampleSt1 : MatcherState :=
  { subjects := [sampleA], handled := [], sVar := none,
    fs := create_event_configuration_files [sampleA] [],
    nextHandle := 1, orphanWarnings := 0 }

/-- C1: the claim states that a DONT_INJECT notification for event E
    appends the live pid to the otherProcessIds of a subject whose event
    equals E.  The code instead appends to whatever subject the Python
    variable s last referred to (the most recently INJECT-matched one,
    regardless of event): after INJECT for event 5 and DONT_INJECT for
    event 7 with pid 999, the pid lands on the event-5 subject and the
    event-7 subject keeps an empty list; and a DONT_INJECT arriving
    before any INJECT raises an unbound-variable NameError instead of
    touching any subject. -/
theorem c1_dont_inject_misattributed :
    (process_messages
        ["INJECT: EVENT: 5 PID: 4242 REC_PID: 100\n",
         "DONT_INJECT: EVENT: 7 PID: 999 REC_PID: 100\n"] sampleSt2).map
      (fun st => st.subjects.map (fun s => (s.event, s.other_procs)))
      = .ok [("5", ["999"]), ("7", [])]
    ∧ process_one_message sampleSt2 "DONT_INJECT: EVENT: 7 PID: 999 REC_PID: 100\n"
      = .error .nameError := by
  exact ⟨rfl, rfl⟩

/-- C2 counterexample: the claim states that a channel line with an
    unknown decision keyword raises ProtocolError and halts matching.
    Processing SKIP_INJECT followed by a well-formed INJECT instead
    completes without any error and the later INJECT is still matched
    (the handled set becomes nonempty), so matching continued. -/
theorem c2_unknown_keyword_counterexample :
    (process_messages
        ["SKIP_INJECT: EVENT: 5 PID: 77 REC_PID: 100\n",
         "INJECT: EVENT: 5 PID: 4242 REC_PID: 100\n"] sampleSt1).map
      (fun st => (st.handled, st.orphanWarnings))
      = .ok ([("5", "m1")], 0) := by
  exact rfl

/-- C3: the claim states that the waiter kills every pid in other_procs
    without raising and continues through all subjects.  The kill loop
    evaluates s.other_procs[i] with the pid string i as the index, so the
    first subject with a nonempty other_procs raises TypeError: here the
    supervisor exited 0 and pid 4243 was alive, yet the call errors and
    the pid is never killed. -/
theorem c3_kill_loop_raises_type_error :
    wait_on_handles (fun _ => 0)
      [{ sampleA with handle := some 1, other_procs := ["4243"] }] [4243]
      = .error .typeError := by
  exact rfl

/-- C5: the claim states that for every subject the stale brk-cache file
    named from that subject rec_pid is removed.  The removal loop ignores
    its loop variable and always removes the file of the LAST PARSED
    subject: with sections for rec_pids 100 then 200 and both cache files
    present, only 200_brks.json is removed and 100_brks.json survives. -/
theorem c5_brks_removal_only_last_parsed :
    (get_configuration
        ⟨"/traces",
         [⟨"1", "100", "t.bin", "0", "10", "m1", none, none⟩,
          ⟨"2", "200", "u.bin", "0", "10", "m2", none, none⟩]⟩
        ["100_brks.json", "200_brks.json"]).map (fun out => out.fs)
      = .ok ["100_brks.json"] := by
  exact rfl

/-- C2 amended: a communication-channel line whose decision keyword is
    neither INJECT nor DONT_INJECT is silently ignored — the loop body
    returns the state unchanged, raising nothing, and processing
    continues with subsequent notifications. -/
theorem c2_unknown_keyword_ignored (st : MatcherState) (msg : String)
    (kw ev pid : String)
    (hp : parseMessage msg = .ok (kw, ev, pid))
    (h1 : kw ≠ "INJECT") (h2 : kw ≠ "DONT_INJECT") :
    process_one_message st msg = .ok st := by
  simp only [process_one_message, hp]
  rw [if_neg h1, if_neg h2]

/-- C2 amended, witness: the theorem applied to the SKIP_INJECT line on
    the sample state. -/
theorem c2_unknown_keyword_ignored_witness :
    parseMessage "SKIP_INJECT: EVENT: 5 PID: 77 REC_PID: 100\n"
      = .ok ("SKIP_INJECT", "5", "77")
    ∧ process_one_message sampleSt1 "SKIP_INJECT: EVENT: 5 PID: 77 REC_PID: 100\n"
      = .ok sampleSt1 :=
  ⟨rfl, c2_unknown_keyword_ignored sampleSt1 _ _ _ _ rfl (by decide) (by decide)⟩

/-- Integer event key of a subject, following the sort key
    int(sub[event]) of get_configuration (0 when unparseable, which
    cannot happen on accepted sources). -/
def eventKey (s : Subject) : Int := (pyIntCore s.event).getD 0

/-- Spec-side predicate of C4: the subject list is sorted strictly
    ascending by numeric event id. -/
def strictlyAscendingByEvent (subs : List Subject) : Bool :=
  ((subs.zip subs.tail).all (fun p => eventKey p.1 < eventKey p.2))

/-- Spec-side predicate of C4: no two subjects share an (event, mutator)
    key. -/
def uniqueEventMutatorKeys : List Subject → Bool
  | [] => true
  | s :: rest =>
    !(rest.map (fun t => (t.event, t.mutator))).contains (s.event, s.mutator)
      && uniqueEventMutatorKeys rest

/-- C4 counterexample: a source with two identical subject sections is
    accepted, and the returned list is neither strictly ascending by
    event nor keywise unique — both subjects carry the key (5, m). -/
theorem c4_sorted_unique_counterexample :
    (get_configuration
        ⟨"/traces",
         [⟨"5", "100", "t.bin", "0", "10", "m", none, none⟩,
          ⟨"5", "100", "t.bin", "0", "10", "m", none, none⟩]⟩ []).map
      (fun out =>
        (out.subjects.map (fun s => (s.event, s.mutator)),
         strictlyAscendingByEvent out.subjects,
         uniqueEventMutatorKeys out.subjects))
      = .ok ([("5", "m"), ("5", "m")], false, false) := by
  exact rfl

/-- Decorated keys produced by a successful decoration agree with the
    integer parse of the event of the paired subject. -/
theorem decorate_key_eq (l : List Subject) (ks : List (Int × Subject))
    (h : decorate l = .ok ks) :
    ∀ p ∈ ks, pyIntCore p.2.event = some p.1 := by
  induction l generalizing ks with
  | nil =>
    unfold decorate at h
    cases h
    simp
  | cons s rest ih =>
    revert h
    unfold decorate
    cases hk : pyInt s.event with
    | error e => intro h; exact absurd h (by simp)
    | ok k =>
      cases hrest : decorate rest with
      | error e => intro h; exact absurd h (by simp)
      | ok ks2 =>
        intro h
        cases h
        intro p hp
        rcases List.mem_cons.mp hp with h1 | h1
        · subst h1
          show pyIntCore s.event = some k
          unfold pyInt at hk
          cases hic : pyIntCore s.event with
          | none => rw [hic] at hk; exact absurd hk (by simp)
          | some k2 =>
            rw [hic] at hk
            injection hk with h2
            exact congrArg some h2
        · exact ih ks2 hrest p h1

/-- C4 amended: for every accepted configuration source, the returned
    subject list is sorted NON-DECREASING (not strictly) by numeric
    event id; uniqueness of (event, mutator) keys is not enforced. -/
theorem c4_subjects_sorted_nondecreasing (cfg : Config) (fs : List String)
    (out : ConfigResult) (h : get_configuration cfg fs = .ok out) :
    List.Sorted (fun a b => eventKey a ≤ eventKey b) out.subjects := by
  unfold get_configuration at h
  split at h
  · exact absurd h (by simp)
  · rename_i s0 srest
    split at h
    · exact absurd h (by simp)
    · rename_i keyed hdec
      cases h
      have hsorted : List.Sorted eventLe (List.insertionSort eventLe keyed) :=
        List.sorted_insertionSort eventLe keyed
      have hperm := List.perm_insertionSort eventLe keyed
      have hkeys : ∀ p ∈ List.insertionSort eventLe keyed,
          eventKey p.2 = p.1 := by
        intro p hpmem
        have hpk : p ∈ keyed := (hperm.mem_iff).mp hpmem
        have := decorate_key_eq _ _ hdec p hpk
        simp [eventKey, this]
      show List.Sorted _ ((List.insertionSort eventLe keyed).map (fun p => p.2))
      rw [List.Sorted, List.pairwise_map]
      refine hsorted.imp_of_mem ?_
      intro a b ha hb hr
      show eventKey a.2 ≤ eventKey b.2
      rw [hkeys a ha, hkeys b hb]
      exact hr

/-- C4 amended, witness: the theorem applied to a two-section source
    whose events arrive in descending order; the output is sorted
    non-decreasing. -/
theorem c4_subjects_sorted_nondecreasing_witness :
    get_configuration
        ⟨"/traces",
         [⟨"7", "200", "u.bin", "0", "10", "m2", none, none⟩,
          ⟨"5", "100", "t.bin", "0", "10", "m1", none, none⟩]⟩ []
      = .ok ⟨"/traces",
             [⟨"5", "100", "t.bin", "0", "10", "m1", "5_m1_state.json",
               none, none, [], none⟩,
              ⟨"7", "200", "u.bin", "0", "10", "m2", "7_m2_state.json",
               none, none, [], none⟩], []⟩
    ∧ List.Sorted (fun a b => eventKey a ≤ eventKey b)
        [⟨"5", "100", "t.bin", "0", "10", "m1", "5_m1_state.json",
          none, none, [], none⟩,
         ⟨"7", "200", "u.bin", "0", "10", "m2", "7_m2_state.json",
          none, none, [], none⟩] :=
  ⟨rfl,
   c4_subjects_sorted_nondecreasing
     ⟨"/traces",
      [⟨"7", "200", "u.bin", "0", "10", "m2", none, none⟩,
       ⟨"5", "100", "t.bin", "0", "10", "m1", none, none⟩]⟩ []
     ⟨"/traces",
      [⟨"5", "100", "t.bin", "0", "10", "m1", "5_m1_state.json",
        none, none, [], none⟩,
       ⟨"7", "200", "u.bin", "0", "10", "m2", "7_m2_state.json",
        none, none, [], none⟩], []⟩ rfl⟩

/-- Candidate list emptiness: when every subject with the matching event
    already has its key in the handled set, subjects_for_event is empty. -/
theorem subjectsForEvent_eq_nil (st : MatcherState) (ev : String)
    (hnone : ∀ i ∈ st.subjects, i.event = ev → (i.event, i.mutator) ∈ st.handled) :
    subjectsForEvent st ev = [] := by
  rw [subjectsForEvent, List.filter_eq_nil_iff]
  intro j _
  cases hg : st.subjects[j]? with
  | none => simp [hg]
  | some i =>
    have hmem : i ∈ st.subjects := by
      rcases List.getElem?_eq_some_iff.mp hg with ⟨hlt, hget⟩
      exact hget ▸ List.getElem_mem hlt
    by_cases he : i.event = ev
    · have hin := hnone i hmem he
      have hcont : st.handled.contains (i.event, i.mutator) = true := by
        rw [List.contains]
        exact List.elem_iff.mpr hin
      simp [hg, hcont]
      exact fun _ => hin
    · simp [hg, he]

/-- C6: an INJECT notification whose event has zero remaining Pending
    subjects only increments the orphan-warning count: subjects, handled
    keys, config files, the s variable and the handle counter are all
    unchanged, no kill of the orphan occurs (process_messages contains no
    kill operation at all), and the driver loop goes on to process the
    remaining notifications from the updated state. -/
theorem c6_orphan_inject_warns_and_continues (st : MatcherState)
    (msg : String) (rest : List String) (ev pid : String)
    (hp : parseMessage msg = .ok ("INJECT", ev, pid))
    (hnone : ∀ i ∈ st.subjects, i.event = ev → (i.event, i.mutator) ∈ st.handled)
    (hloop : st.handled.length < st.subjects.length) :
    process_one_message st msg
      = .ok { st with orphanWarnings := st.orphanWarnings + 1 }
    ∧ process_messages (msg :: rest) st
      = process_messages rest { st with orphanWarnings := st.orphanWarnings + 1 } := by
  have hidx := subjectsForEvent_eq_nil st ev hnone
  have h1 : process_one_message st msg
      = .ok { st with orphanWarnings := st.orphanWarnings + 1 } := by
    simp [process_one_message, hp, hidx]
  refine ⟨h1, ?_⟩
  simp only [process_messages, if_pos hloop, h1]

/-- C6 witness: the theorem applied to an INJECT line for event 7 on the
    sample state, whose only subject is for event 5. -/
theorem c6_orphan_inject_witness :
    sampleSt1.handled.length < sampleSt1.subjects.length
    ∧ process_one_message sampleSt1 "INJECT: EVENT: 7 PID: 4242 REC_PID: 100\n"
      = .ok { sampleSt1 with orphanWarnings := sampleSt1.orphanWarnings + 1 } :=
  ⟨by decide,
   (c6_orphan_inject_warns_and_continues sampleSt1
      "INJECT: EVENT: 7 PID: 4242 REC_PID: 100\n" [] "7" "4242"
      rfl (by decide) (by decide)).1⟩

/-- Emitted files do not shadow a path no written subject uses: looking
    up such a path after create_event_configuration_files sees the prior
    filesystem. -/
theorem create_files_lookup_of_not_written (subs : List Subject) (fs : JFS)
    (p : String) (h : ∀ t ∈ subs, t.injected_state_file ≠ p) :
    (create_event_configuration_files subs fs).lookup p = fs.lookup p := by
  induction subs generalizing fs with
  | nil => rfl
  | cons a rest ih =>
    have hne : a.injected_state_file ≠ p := h a (List.mem_cons_self a rest)
    have : (create_event_configuration_files (a :: rest) fs)
        = create_event_configuration_files rest
            ((a.injected_state_file, dumpSubject a) :: fs) := rfl
    rw [this, ih _ (fun t ht => h t (List.mem_cons_of_mem a ht))]
    have hbeq : (p == a.injected_state_file) = false := by
      simp [Ne.symm hne]
    simp [List.lookup, hbeq]

/-- Lookup of the file of a written subject whose path no other written
    subject shares yields exactly its serialized record. -/
theorem create_files_lookup_of_written (subs : List Subject) (fs : JFS)
    (s : Subject) (hmem : s ∈ subs)
    (huni : ∀ t ∈ subs, t.injected_state_file = s.injected_state_file → t = s) :
    (create_event_configuration_files subs fs).lookup s.injected_state_file
      = some (dumpSubject s) := by
  induction subs generalizing fs with
  | nil => cases hmem
  | cons a rest ih =>
    have hstep : (create_event_configuration_files (a :: rest) fs)
        = create_event_configuration_files rest
            ((a.injected_state_file, dumpSubject a) :: fs) := rfl
    by_cases hr : s ∈ rest
    · rw [hstep]
      exact ih _ hr (fun t ht => huni t (List.mem_cons_of_mem a ht))
    · have hsa : s = a := by
        rcases List.mem_cons.mp hmem with h1 | h1
        · exact h1
        · exact absurd h1 hr
      subst hsa
      rw [hstep,
          create_files_lookup_of_not_written rest _ s.injected_state_file
            (fun t ht hts => hr ((huni t (List.mem_cons_of_mem s ht) hts) ▸ ht))]
      simp [List.lookup]

/-- C7: a subject written by create_event_configuration_files to its
    injected_state_file path and read back from that path yields a JSON
    record whose static fields — event, recorded pid, trace file, trace
    start, trace end, mutator, and the optional backing-files and checker
    fields exactly when present — equal the original; the uniqueness
    hypothesis excludes a later subject overwriting the same path (the
    path is a function of the (event, mutator) key). -/
theorem c7_event_config_roundtrip (subs : List Subject) (fs : JFS)
    (s : Subject) (hmem : s ∈ subs)
    (huni : ∀ t ∈ subs, t.injected_state_file = s.injected_state_file → t = s) :
    ∃ obj,
      (create_event_configuration_files subs fs).lookup s.injected_state_file
        = some obj
      ∧ jLookup obj "event" = some (.str s.event)
      ∧ jLookup obj "rec_pid" = some (.str s.rec_pid)
      ∧ jLookup obj "trace_file" = some (.str s.trace_file)
      ∧ jLookup obj "trace_start" = some (.str s.trace_start)
      ∧ jLookup obj "trace_end" = some (.str s.trace_end)
      ∧ jLookup obj "mutator" = some (.str s.mutator)
      ∧ jLookup obj "mmap_backing_files" = s.mmap_backing_files.map JVal.str
      ∧ jLookup obj "checker" = s.checker.map JVal.str := by
  refine ⟨dumpSubject s, create_files_lookup_of_written subs fs s hmem huni,
          rfl, rfl, rfl, rfl, rfl, rfl, ?_, ?_⟩ <;>
  · obtain ⟨ev, rp, tf, ts, te, mu, isf, mb, ck, op, hd⟩ := s
    cases mb <;> cases ck <;> rfl

/-- C7 witness: the theorem applied to sampleA inside the two-subject
    list [sampleA, sampleB]. -/
theorem c7_event_config_roundtrip_witness :
    sampleA ∈ [sampleA, sampleB]
    ∧ ∃ obj,
        (create_event_configuration_files [sampleA, sampleB] []).lookup
            sampleA.injected_state_file = some obj
        ∧ jLookup obj "event" = some (.str sampleA.event)
        ∧ jLookup obj "rec_pid" = some (.str sampleA.rec_pid)
        ∧ jLookup obj "trace_file" = some (.str sampleA.trace_file)
        ∧ jLookup obj "trace_start" = some (.str sampleA.trace_start)
        ∧ jLookup obj "trace_end" = some (.str sampleA.trace_end)
        ∧ jLookup obj "mutator" = some (.str sampleA.mutator)
        ∧ jLookup obj "mmap_backing_files" = sampleA.mmap_backing_files.map JVal.str
        ∧ jLookup obj "checker" = sampleA.checker.map JVal.str :=
  ⟨by decide,
   c7_event_config_roundtrip [sampleA, sampleB] [] sampleA
     (by decide) (by decide)⟩

/-- Shape of any value the read loop returns: a message ending in the
    line terminator, or the empty message with an exhausted stream and an
    empty buffer at entry. -/
theorem readMsgLoop_result_shape (fuel : Nat) :
    ∀ (stream buf : List Char) (msg : String) (rest : List Char),
      readMsgLoop fuel stream buf = some (msg, rest) →
      (msg.data ≠ [] ∧ msg.data.getLast? = some '\n')
      ∨ (msg = "" ∧ stream = [] ∧ buf = []) := by
  induction fuel with
  | zero => intro stream buf msg rest h; cases h
  | succ n ih =>
    intro stream buf msg rest h
    cases stream with
    | nil =>
      by_cases hb : buf = []
      · right
        rw [readMsgLoop, if_pos hb] at h
        cases h
        exact ⟨rfl, rfl, hb⟩
      · rw [readMsgLoop, if_neg hb] at h
        by_cases hl : buf.getLastD ' ' = '\n'
        · rw [if_pos hl] at h
          cases h
          left
          refine ⟨hb, ?_⟩
          rw [List.getLastD_eq_getLast?] at hl
          cases hg : buf.getLast? with
          | none =>
            rw [hg] at hl
            exact absurd hl (by decide)
          | some c =>
            rw [hg] at hl
            exact congrArg some hl
        · rw [if_neg hl] at h
          rcases ih [] buf msg rest h with h1 | ⟨h1, _, h3⟩
          · exact Or.inl h1
          · exact absurd h3 hb
    | cons c rest2 =>
      by_cases hc : c = '\n'
      · rw [readMsgLoop, if_pos hc] at h
        cases h
        left
        constructor
        · simp
        · show (buf ++ [c]).getLast? = some '\n'
          rw [List.getLast?_concat, hc]
      · rw [readMsgLoop, if_neg hc] at h
        rcases ih rest2 (buf ++ [c]) msg rest h with h1 | ⟨_, _, h3⟩
        · exact Or.inl h1
        · exact absurd h3 (by simp)

/-- C8: whenever get_message returns, the message either is nonempty and
    ends in the line terminator, or is empty with the channel closed
    before delivering any byte; and when the global pipe handle is
    already open, the call neither consults the fifo path again (the
    result is the same for every fifo content) nor drops the handle (the
    successor state still holds an open handle). -/
theorem c8_get_message_spec (fuel : Nat) (fifoContent : List Char)
    (st : PipeState) :
    (∀ msg st2, get_message fuel fifoContent st = some (msg, st2) →
      ((msg.data ≠ [] ∧ msg.data.getLast? = some '\n')
       ∨ (msg = "" ∧ openedStream st fifoContent = []))
      ∧ st2.pipe.isSome = true)
    ∧ (∀ s, st.pipe = some s →
        ∀ fifo2, get_message fuel fifo2 st = get_message fuel fifoContent st) := by
  constructor
  · intro msg st2 h
    rw [get_message] at h
    cases hl : readMsgLoop fuel (openedStream st fifoContent) [] with
    | none => rw [hl] at h; cases h
    | some pr =>
      rw [hl] at h
      cases h
      constructor
      · rcases readMsgLoop_result_shape fuel _ _ _ _ hl with h1 | ⟨h1, h2, _⟩
        · exact Or.inl h1
        · exact Or.inr ⟨h1, h2⟩
      · rfl
  · intro s hs fifo2
    rw [get_message, get_message, openedStream, openedStream, hs]
    rfl

/-- C8 witness: the theorem applied to a first call reading the complete
    message hi-newline, and to an already-open state, where the fifo
    content is irrelevant. -/
theorem c8_get_message_spec_witness :
    get_message 5 "hi\nz".data ⟨none⟩ = some ("hi\n", ⟨some ['z']⟩)
    ∧ ((("hi\n" : String).data ≠ []
        ∧ ("hi\n" : String).data.getLast? = some '\n')
       ∨ ("hi\n" = "" ∧ openedStream ⟨none⟩ "hi\nz".data = []))
    ∧ get_message 5 "qq".data ⟨some "a\n".data⟩
      = get_message 5 "rrr".data ⟨some "a\n".data⟩ :=
  ⟨rfl,
   ((c8_get_message_spec 5 "hi\nz".data ⟨none⟩).1 "hi\n" ⟨some ['z']⟩ rfl).1,
   (c8_get_message_spec 5 "rrr".data ⟨some "a\n".data⟩).2 "a\n".data rfl "qq".data⟩

/-- C9: cleanup never raises, and running it twice in a row changes
    nothing the second time: every removal is guarded by an existence
    check, so the second call is a no-op returning the same state. -/
theorem c9_cleanup_idempotent (fs : List String) :
    ∃ fs2, cleanup fs = .ok fs2 ∧ cleanup fs2 = .ok fs2 := by
  have hstep : ∀ (g : List String) (p : String),
      p ∉ g.filter (fun q => q != p) := by
    intro g p hmem
    have := (List.mem_filter.mp hmem).2
    simp at this
  have hkeep : ∀ (g : List String) (p q : String), q ∉ g →
      q ∉ g.filter (fun r => r != p) := by
    intro g p q hq hmem
    exact hq (List.mem_filter.mp hmem).1
  by_cases h1 : PROC_FILE ∈ fs
  · by_cases h2 : RR_PIPE ∈ fs.filter (fun q => q != PROC_FILE)
    · refine ⟨(fs.filter (fun q => q != PROC_FILE)).filter (fun q => q != RR_PIPE),
              ?_, ?_⟩
      · simp [cleanup, os_unlink, h1, h2]
      · simp [cleanup, os_unlink,
              hkeep (fs.filter (fun q => q != PROC_FILE)) RR_PIPE PROC_FILE
                (hstep fs PROC_FILE),
              hstep (fs.filter (fun q => q != PROC_FILE)) RR_PIPE]
    · refine ⟨fs.filter (fun q => q != PROC_FILE), ?_, ?_⟩
      · simp [cleanup, os_unlink, h1, h2]
      · simp [cleanup, os_unlink, hstep fs PROC_FILE, h2]
  · by_cases h2 : RR_PIPE ∈ fs
    · refine ⟨fs.filter (fun q => q != RR_PIPE), ?_, ?_⟩
      · simp [cleanup, os_unlink, h1, h2]
      · simp [cleanup, os_unlink, hkeep fs RR_PIPE PROC_FILE h1,
              hstep fs RR_PIPE]
    · exact ⟨fs, by simp [cleanup, h1, h2], by simp [cleanup, h1, h2]⟩

/-- Divergence of the read loop: with no line terminator anywhere in the
    remaining stream, a buffer not ending in one, and at least one byte
    either already buffered or still to come, the loop never returns for
    any amount of fuel. -/
theorem readMsgLoop_diverges (fuel : Nat) :
    ∀ (stream buf : List Char), '\n' ∉ stream →
      buf.getLastD ' ' ≠ '\n' → (buf = [] → stream ≠ []) →
      readMsgLoop fuel stream buf = none := by
  induction fuel with
  | zero => intro stream buf _ _ _; rfl
  | succ n ih =>
    intro stream buf hs hb hne
    cases stream with
    | nil =>
      have hbne : buf ≠ [] := by
        intro hb0
        exact hne hb0 rfl
      rw [readMsgLoop, if_neg hbne, if_neg hb]
      exact ih [] buf (by simp) hb (fun hb0 => absurd hb0 hbne)
    | cons c rest2 =>
      have hc : c ≠ '\n' := by
        intro hc0
        exact hs (hc0 ▸ List.mem_cons_self c rest2)
      rw [readMsgLoop, if_neg hc]
      refine ih rest2 (buf ++ [c]) (fun hm => hs (List.mem_cons_of_mem c hm))
        ?_ (by simp)
      rw [List.getLastD_concat]
      exact hc

/-- C10: on a channel that delivers at least one byte and then closes
    without ever delivering a line terminator, get_message never returns:
    for every fuel bound the loop is still running, because the
    closed-channel test compares the whole accumulated buffer to empty
    and can no longer fire once a byte has been read. -/
theorem c10_get_message_diverges (fuel : Nat) (fifoContent : List Char)
    (st : PipeState)
    (h1 : openedStream st fifoContent ≠ [])
    (h2 : '\n' ∉ openedStream st fifoContent) :
    get_message fuel fifoContent st = none := by
  rw [get_message,
      readMsgLoop_diverges fuel (openedStream st fifoContent) [] h2
        (by simp) (fun _ => h1)]

/-- C10 witness: the theorem applied to a channel that delivers the
    single byte a and closes, for a sample fuel bound. -/
theorem c10_get_message_diverges_witness :
    openedStream ⟨none⟩ ['a'] ≠ [] ∧ '\n' ∉ openedStream ⟨none⟩ ['a']
    ∧ get_message 7 ['a'] ⟨none⟩ = none :=
  ⟨by decide, by decide,
   c10_get_message_diverges 7 ['a'] ⟨none⟩ (by decide) (by decide)⟩

end CrashSim
